import Mathlib

/-!
Shallow embedding of the iota.rs node-binding task-dispatch bridge
(`src/bindings/node/native/src/lib.rs` and
`src/bindings/node/native/src/classes/client/api.rs`).

Pure data flow is translated directly; the process-wide registry becomes
explicit state passing, a panicking computation becomes a `Panics` value,
and the external iota client library is a record of call results.
-/

namespace IotaBridge

/-! ### Panic payloads and the failure-isolation boundary (lib.rs) -/

/-- A Rust panic payload (`Box<dyn Any>`): the two downcasts attempted by
`panic_to_response_message` (String, then `&str`), or anything else. -/
inductive PanicPayload where
  | stringPayload (s : String)
  | strPayload (s : String)
  | otherPayload
  deriving DecidableEq

/-- `lib.rs::panic_to_response_message`: best-effort description of the payload
followed by the backtrace (`format!("{}\n\n{:?}", msg, current_backtrace)`).
The backtrace is opaque and passed as a parameter. -/
def panic_to_response_message (panic : PanicPayload) (backtrace : String) : String :=
  let msg :=
    match panic with
    | .stringPayload message => "Internal error: " ++ message
    | .strPayload message => "Internal error: " ++ message
    | .otherPayload => "Internal error"
  msg ++ "\n\n" ++ backtrace

/-- Debug representation of an external error value (its `{:?}` output). -/
structure ClientErr where
  debugRepr : String
  deriving DecidableEq

/-- Debug representation of a `bech32::Error` (its `{:?}` output). -/
structure Bech32Err where
  debugRepr : String
  deriving DecidableEq

/-- Debug representation of an `anyhow::Error`. -/
structure AnyhowErr where
  debugRepr : String
  deriving DecidableEq

/-- `lib.rs::Error`: the crate-wide error enum. -/
inductive Error where
  | AnyhowError (e : AnyhowErr)
  | ClientError (e : ClientErr)
  | AddressError (e : Bech32Err)
  | Panic (msg : String)
  deriving DecidableEq

/-- The outcome of running a computation that may unwind: either a normal
value or a panic carrying its payload. -/
inductive Panics (α : Type) where
  | value (a : α)
  | panicked (p : PanicPayload)
  deriving DecidableEq

/-- `lib.rs::convert_async_panics`: await the wrapped future under
`catch_unwind`; a caught panic becomes `Error::Panic` via
`panic_to_response_message`. -/
def convert_async_panics {α : Type} (f : Panics (Except Error α)) (backtrace : String) :
    Except Error α :=
  match f with
  | .value result => result
  | .panicked p => .error (.Panic (panic_to_response_message p backtrace))

/-- `lib.rs::convert_panics`: synchronous variant with the same conversion. -/
def convert_panics {α : Type} (f : Panics (Except Error α)) (backtrace : String) :
    Except Error α :=
  match f with
  | .value result => result
  | .panicked p => .error (.Panic (panic_to_response_message p backtrace))

/-! ### The instance registry (lib.rs)

`ClientInstanceMap = Arc<RwLock<HashMap<String, Arc<RwLock<Client>>>>>`,
modelled as an association list with at most one binding per key
(insert replaces, remove erases the binding). -/

/-- The registry map from handles to client resources. -/
@[reducible]
def Registry (α : Type) : Type :=
  List (String × α)

/-- `HashMap::get` on the registry. -/
def lookupClient {α : Type} (m : Registry α) (id : String) : Option α :=
  match m with
  | [] => none
  | e :: rest => if e.1 == id then some e.2 else lookupClient rest id

/-- `HashMap::insert`: binds `id` to `c`, replacing any previous binding. -/
def insertClient {α : Type} (m : Registry α) (id : String) (c : α) : Registry α :=
  (id, c) :: m.filter (fun e => !(e.1 == id))

/-- `lib.rs::get_client`: looks up the handle and `.expect(..)`s the entry,
so a missing handle panics with the expect message. -/
def get_client {α : Type} (m : Registry α) (id : String) : Panics α :=
  match lookupClient m id with
  | some client => .value client
  | none => .panicked (.strPayload "client dropped or not initialised")

/-- The character set of rand's `Alphanumeric` distribution. -/
def alphanumericChars : List Char :=
  "ABCDEFGHIJKLMNOPQRSTUVWXYZabcdefghijklmnopqrstuvwxyz0123456789".toList

/-- One draw from the `Alphanumeric` distribution (an index into its
62-character set). -/
def sampleAlphanumeric (r : Fin 62) : Char :=
  alphanumericChars.getD r.val 'A'

/-- `thread_rng().sample_iter(&Alphanumeric).take(10).collect()`: the handle
built from the first ten draws of the random stream `rng`. -/
def genHandle (rng : Nat → Fin 62) : String :=
  String.mk ((List.range 10).map (fun i => sampleAlphanumeric (rng i)))

/-- `lib.rs::store_client`: generates a random 10-character id, inserts the
client under it, and returns the id together with the updated registry. -/
def store_client {α : Type} (m : Registry α) (rng : Nat → Fin 62) (client : α) :
    String × Registry α :=
  let id := genHandle rng
  (id, insertClient m id client)

/-- `lib.rs::remove_client`: `HashMap::remove` of the binding for `id`. -/
def remove_client {α : Type} (m : Registry α) (id : String) : Registry α :=
  m.filter (fun e => !(e.1 == id))

/-! ### JSON values and serde_json serialization (api.rs)

`serde_json::to_string` is modelled by a JSON syntax tree plus its compact
rendering; struct fields are emitted in declaration order with their
`serde(rename)` names. -/

/-- A JSON value. All numbers serialized by the bridge are unsigned
integers, so `num` carries a `Nat`. -/
inductive Json where
  | null
  | bool (b : Bool)
  | num (n : Nat)
  | str (s : String)
  | arr (xs : List Json)
  | obj (fields : List (String × Json))

/-- JSON string escaping (quote and backslash; other characters kept). -/
def escapeChar (c : Char) : String :=
  if c = '"' then "\\\"" else if c = '\\' then "\\\\" else String.mk [c]

/-- Escapes every character of a string for a JSON string literal. -/
def escapeString (s : String) : String :=
  String.join (s.toList.map escapeChar)

mutual

/-- Compact rendering of a JSON value, as `serde_json::to_string` emits it. -/
def jsonToString : Json → String
  | .null => "null"
  | .bool true => "true"
  | .bool false => "false"
  | .num n => toString n
  | .str s => "\"" ++ escapeString s ++ "\""
  | .arr xs => "[" ++ jsonListToString xs ++ "]"
  | .obj fields => "\x7b" ++ jsonObjToString fields ++ "\x7d"

/-- Comma-separated rendering of array elements. -/
def jsonListToString : List Json → String
  | [] => ""
  | [x] => jsonToString x
  | x :: y :: xs => jsonToString x ++ "," ++ jsonListToString (y :: xs)

/-- Comma-separated rendering of object fields. -/
def jsonObjToString : List (String × Json) → String
  | [] => ""
  | [f] => "\"" ++ escapeString f.1 ++ "\":" ++ jsonToString f.2
  | f :: g :: fs =>
    "\"" ++ escapeString f.1 ++ "\":" ++ jsonToString f.2 ++ "," ++ jsonObjToString (g :: fs)

end

/-! ### External iota / bech32 types (opaque at this boundary) -/

/-- `hex` lower-case digit of a nibble. -/
def hexDigit (n : Nat) : Char :=
  "0123456789abcdef".toList.getD n '0'

/-- `hex::encode` of one byte: high nibble then low nibble. -/
def hexEncodeByte (b : Fin 256) : String :=
  String.mk [hexDigit (b.val / 16), hexDigit (b.val % 16)]

/-- `hex::encode` of a byte slice. -/
def hexEncode (bs : List (Fin 256)) : String :=
  String.join (bs.map hexEncodeByte)

/-- A message identifier: an opaque byte sequence (hex-encodable). -/
structure MessageId where
  bytes : List (Fin 256)
  deriving DecidableEq

/-- A transaction identifier: an opaque byte sequence (hex-encodable). -/
structure TransactionId where
  bytes : List (Fin 256)
  deriving DecidableEq

/-- An address; `to_bech32` yields its bech32 text form. -/
structure Address where
  bech32Repr : String
  deriving DecidableEq

/-- `Address::to_bech32`. -/
def Address.to_bech32 (a : Address) : String :=
  a.bech32Repr

/-- An opaque seed value. -/
structure Seed where
  tag : Nat
  deriving DecidableEq

/-- An opaque BIP32 derivation path. -/
structure BIP32Path where
  tag : Nat
  deriving DecidableEq

/-- An opaque message. -/
structure Message where
  tag : Nat
  deriving DecidableEq

/-- An opaque message-metadata value. -/
structure MessageMetadata where
  tag : Nat
  deriving DecidableEq

/-- Opaque node information. -/
structure NodeInfo where
  tag : Nat
  deriving DecidableEq

/-- An opaque milestone value. -/
structure Milestone where
  tag : Nat
  deriving DecidableEq

/-- An opaque UTXO input (output id). -/
structure UTXOInput where
  tag : Nat
  deriving DecidableEq

/-- `iota::OutputMetadata` with the fields the DTO conversion reads. -/
structure OutputMetadata where
  message_id : List (Fin 256)
  transaction_id : List (Fin 256)
  output_index : Nat
  is_spent : Bool
  address : Address
  amount : Nat
  deriving DecidableEq

/-- `iota::AddressBalancePair` with the fields the DTO conversion reads. -/
structure AddressBalancePair where
  address : Address
  balance : Nat
  deriving DecidableEq

/-! ### DTOs (api.rs) -/

/-- `api.rs::OutputMetadataDto`. -/
structure OutputMetadataDto where
  message_id : String
  transaction_id : String
  output_index : Nat
  is_spent : Bool
  address : String
  amount : Nat
  deriving DecidableEq

/-- `impl From<OutputMetadata> for OutputMetadataDto`. -/
def OutputMetadataDto.from (value : OutputMetadata) : OutputMetadataDto :=
  { message_id := hexEncode value.message_id
    transaction_id := hexEncode value.transaction_id
    output_index := value.output_index
    is_spent := value.is_spent
    address := value.address.to_bech32
    amount := value.amount }

/-- serde serialization of `OutputMetadataDto`: declaration order with the
`serde(rename)` names. -/
def serializeOutputMetadataDto (dto : OutputMetadataDto) : Json :=
  .obj
    [("messageId", .str dto.message_id),
     ("transactionId", .str dto.transaction_id),
     ("outputIndex", .num dto.output_index),
     ("isSpent", .bool dto.is_spent),
     ("address", .str dto.address),
     ("amount", .num dto.amount)]

/-- `api.rs::AddressBalanceDto`. -/
structure AddressBalanceDto where
  address : String
  balance : Nat
  deriving DecidableEq

/-- `impl From<AddressBalancePair> for AddressBalanceDto`. -/
def AddressBalanceDto.from (value : AddressBalancePair) : AddressBalanceDto :=
  { address := value.address.to_bech32
    balance := value.balance }

/-- serde serialization of `AddressBalanceDto`. -/
def serializeAddressBalanceDto (dto : AddressBalanceDto) : Json :=
  .obj [("address", .str dto.address), ("balance", .num dto.balance)]

/-! ### The operation descriptor (api.rs::Api) -/

/-- `api.rs::Api`: the closed set of supported operations. -/
inductive Api where
  | SendTransfer (seed : Seed) (path : Option BIP32Path) (index : Option Nat)
      (outputs : List (Address × Nat))
  | GetUnspentAddress (seed : Seed) (path : Option BIP32Path) (index : Option Nat)
  | FindMessages (indexation_keys : List String) (message_ids : List MessageId)
  | GetBalance (seed : Seed) (path : Option BIP32Path) (index : Option Nat)
  | GetAddressBalances (addresses : List Address)
  | GetInfo
  | GetTips
  | PostMessage (message : Message)
  | GetMessagesByIndexation (index : String)
  | GetMessage (id : MessageId)
  | GetMessageMetadata (id : MessageId)
  | GetRawMessage (id : MessageId)
  | GetMessageChildren (id : MessageId)
  | GetOutput (id : UTXOInput)
  | FindOutputs (outputs : List UTXOInput) (addresses : List Address)
  | GetAddressBalance (address : Address)
  | GetAddressOutputs (address : Address)
  | GetMilestone (index : Nat)
  | Retry (id : MessageId)
  | Reattach (id : MessageId)
  | Promote (id : MessageId)

/-- The external iota client library at this task's boundary: for each call
the result the library would return, builder chains flattened into one call
with all options. Every call is fallible with `iota::client::Error`. -/
structure ClientRes where
  send_transfer : Seed → Option BIP32Path → Option Nat → List (Address × Nat) →
    Except ClientErr MessageId
  get_unspent_address : Seed → Option BIP32Path → Option Nat → Except ClientErr (Address × Nat)
  find_messages : List String → List MessageId → Except ClientErr (List Message)
  get_balance : Seed → Option BIP32Path → Option Nat → Except ClientErr Nat
  get_address_balances : List Address → Except ClientErr (List AddressBalancePair)
  get_info : Except ClientErr NodeInfo
  get_tips : Except ClientErr (MessageId × MessageId)
  post_message : Message → Except ClientErr MessageId
  get_messages_by_index : String → Except ClientErr (List Message)
  get_message_data : MessageId → Except ClientErr Message
  get_message_metadata : MessageId → Except ClientErr MessageMetadata
  get_message_raw : MessageId → Except ClientErr String
  get_message_children : MessageId → Except ClientErr (List MessageId)
  get_output : UTXOInput → Except ClientErr OutputMetadata
  find_outputs : List UTXOInput → List Address → Except ClientErr (List OutputMetadata)
  get_address_balance : Address → Except ClientErr Nat
  get_address_outputs : Address → Except ClientErr (List UTXOInput)
  get_milestone : Nat → Except ClientErr Milestone
  retry : MessageId → Except ClientErr Message
  reattach : MessageId → Except ClientErr Message
  promote : MessageId → Except ClientErr Message

/-- serde serializations of the external types, which this crate does not
define: one abstract JSON encoding per type. -/
structure Encoders where
  messageId : MessageId → Json
  message : Message → Json
  metadata : MessageMetadata → Json
  info : NodeInfo → Json
  milestone : Milestone → Json
  utxoInput : UTXOInput → Json
  balance : Nat → Json

/-- One `client.call(..).await?` followed by
`serde_json::to_string(&res).unwrap()`: a library error is lifted into
`Error::ClientError` by `?`, a success is JSON-encoded. -/
def encodeResult {α : Type} (r : Except ClientErr α) (f : α → Json) : Except Error String :=
  match r with
  | .ok a => .ok (jsonToString (f a))
  | .error e => .error (.ClientError e)

/-- `client.get_message().raw(&id).await?`: the raw string is returned
without a serialization step. -/
def rawResult (r : Except ClientErr String) : Except Error String :=
  match r with
  | .ok s => .ok s
  | .error e => .error (.ClientError e)

/-- The match over `self.api` inside `ClientTask::perform`, translated arm
by arm; builder chains (`send`, `get_unspent_address`, `get_balance`,
`get_message`, `get_address`) are flattened into the structure fields. -/
def performApi (client : ClientRes) (enc : Encoders) (api : Api) : Except Error String :=
  match api with
  | .SendTransfer seed path index outputs =>
    encodeResult (client.send_transfer seed path index outputs) enc.messageId
  | .GetUnspentAddress seed path index =>
    encodeResult (client.get_unspent_address seed path index)
      (fun r => .arr [.str r.1.to_bech32, .num r.2])
  | .FindMessages keys ids =>
    encodeResult (client.find_messages keys ids) (fun ms => .arr (ms.map enc.message))
  | .GetBalance seed path index =>
    encodeResult (client.get_balance seed path index) (fun b => enc.balance b)
  | .GetAddressBalances addresses =>
    encodeResult (client.get_address_balances addresses)
      (fun bs => .arr (bs.map (fun b => serializeAddressBalanceDto (AddressBalanceDto.from b))))
  | .GetInfo => encodeResult client.get_info enc.info
  | .GetTips =>
    encodeResult client.get_tips (fun tips => .arr [enc.messageId tips.1, enc.messageId tips.2])
  | .PostMessage message => encodeResult (client.post_message message) enc.messageId
  | .GetMessagesByIndexation index =>
    encodeResult (client.get_messages_by_index index) (fun ms => .arr (ms.map enc.message))
  | .GetMessage id => encodeResult (client.get_message_data id) enc.message
  | .GetMessageMetadata id => encodeResult (client.get_message_metadata id) enc.metadata
  | .GetRawMessage id => rawResult (client.get_message_raw id)
  | .GetMessageChildren id =>
    encodeResult (client.get_message_children id) (fun ids => .arr (ids.map enc.messageId))
  | .GetOutput id =>
    encodeResult (client.get_output id)
      (fun o => serializeOutputMetadataDto (OutputMetadataDto.from o))
  | .FindOutputs outputs addresses =>
    encodeResult (client.find_outputs outputs addresses)
      (fun os => .arr (os.map (fun o => serializeOutputMetadataDto (OutputMetadataDto.from o))))
  | .GetAddressBalance address =>
    encodeResult (client.get_address_balance address) (fun b => enc.balance b)
  | .GetAddressOutputs address =>
    encodeResult (client.get_address_outputs address) (fun ids => .arr (ids.map enc.utxoInput))
  | .GetMilestone index => encodeResult (client.get_milestone index) enc.milestone
  | .Retry id => encodeResult (client.retry id) enc.message
  | .Reattach id => encodeResult (client.reattach id) enc.message
  | .Promote id => encodeResult (client.promote id) enc.message

/-- `api.rs::ClientTask`: a submitted task. -/
structure ClientTask where
  client_id : String
  api : Api

/-- The body of the async block in `ClientTask::perform`: `get_client`
first (which panics on an unknown handle, and that panic escapes to the
surrounding boundary), then the dispatch over the api. -/
def taskBody (m : Registry ClientRes) (enc : Encoders) (t : ClientTask) :
    Panics (Except Error String) :=
  match get_client m t.client_id with
  | .value client => .value (performApi client enc t.api)
  | .panicked p => .panicked p

/-- `ClientTask::perform`: the async body run to completion under
`convert_async_panics` (via `block_on`). -/
def ClientTask.perform (t : ClientTask) (m : Registry ClientRes) (enc : Encoders)
    (backtrace : String) : Except Error String :=
  convert_async_panics (taskBody m enc t) backtrace

/-- What `ClientTask::complete` hands the host: exactly one JS string value
or exactly one thrown error. -/
inductive JsOutcome where
  | value (s : String)
  | thrown (msg : String)
  deriving DecidableEq

/-- Rust `Debug` rendering of a string (quotes; quote and backslash
escaped). -/
def stringDebug (s : String) : String :=
  "\"" ++ escapeString s ++ "\""

/-- Derived `Debug` rendering of `lib.rs::Error`. -/
def Error.debugFormat : Error → String
  | .AnyhowError e => "AnyhowError(" ++ e.debugRepr ++ ")"
  | .ClientError e => "ClientError(" ++ e.debugRepr ++ ")"
  | .AddressError e => "AddressError(" ++ e.debugRepr ++ ")"
  | .Panic msg => "Panic(" ++ stringDebug msg ++ ")"

/-- `ClientTask::complete`: an `Ok` becomes one JS string, an `Err` becomes
one thrown error with the uniform `ClientTask error: {:?}` message. -/
def ClientTask.complete (result : Except Error String) : JsOutcome :=
  match result with
  | .ok s => .value s
  | .error e => .thrown ("ClientTask error: " ++ Error.debugFormat e)

/-! ### Concrete sample data (used to instantiate the theorems) -/

/-- A sample message id. -/
def sampleId : MessageId :=
  ⟨[(0 : Fin 256)]⟩

/-- A second, distinct sample message id. -/
def sampleId2 : MessageId :=
  ⟨[(1 : Fin 256)]⟩

/-- A sample address. -/
def sampleAddress : Address :=
  ⟨"iota1qtest"⟩

/-- A sample UTXO input. -/
def sampleUtxo : UTXOInput :=
  ⟨0⟩

/-- A sample output metadata record. -/
def sampleMeta : OutputMetadata :=
  { message_id := [(17 : Fin 256)]
    transaction_id := [(34 : Fin 256)]
    output_index := 3
    is_spent := true
    address := sampleAddress
    amount := 100 }

/-- Sample encoders for the external types. -/
def sampleEnc : Encoders :=
  { messageId := fun _ => .null
    message := fun _ => .null
    metadata := fun _ => .null
    info := fun _ => .null
    milestone := fun _ => .null
    utxoInput := fun _ => .null
    balance := fun n => .num n }

/-- A sample client whose calls all succeed with fixed results; its raw
message call returns the empty string. -/
def sampleClient : ClientRes :=
  { send_transfer := fun _ _ _ _ => .ok sampleId
    get_unspent_address := fun _ _ _ => .ok (sampleAddress, 0)
    find_messages := fun _ _ => .ok []
    get_balance := fun _ _ _ => .ok 0
    get_address_balances := fun _ => .ok []
    get_info := .ok ⟨0⟩
    get_tips := .ok (sampleId, sampleId2)
    post_message := fun _ => .ok sampleId
    get_messages_by_index := fun _ => .ok []
    get_message_data := fun _ => .ok ⟨0⟩
    get_message_metadata := fun _ => .ok ⟨0⟩
    get_message_raw := fun _ => .ok ""
    get_message_children := fun _ => .ok []
    get_output := fun _ => .ok sampleMeta
    find_outputs := fun _ _ => .ok [sampleMeta]
    get_address_balance := fun _ => .ok 0
    get_address_outputs := fun _ => .ok []
    get_milestone := fun _ => .ok ⟨0⟩
    retry := fun _ => .ok ⟨0⟩
    reattach := fun _ => .ok ⟨0⟩
    promote := fun _ => .ok ⟨0⟩ }

/-! ### Helper lemmas -/

theorem strAppendAssoc (a b c : String) : a ++ b ++ c = a ++ (b ++ c) := by
  cases a with
  | mk la =>
    cases b with
    | mk lb =>
      cases c with
      | mk lc =>
        show String.mk (la ++ lb ++ lc) = String.mk (la ++ (lb ++ lc))
        rw [List.append_assoc]

theorem lookupClient_filter_other {α : Type} (m : Registry α) (id h2 : String)
    (hne : h2 ≠ id) :
    lookupClient (m.filter (fun e => !(e.1 == id))) h2 = lookupClient m h2 := by
  induction m with
  | nil => rfl
  | cons e rest ih =>
    by_cases hk : e.1 = id
    · have hdrop : (!(e.1 == id)) = false := by simp [hk]
      have hskip : (e.1 == h2) = false := by
        simp only [beq_eq_false_iff_ne]
        exact fun hcontra => hne (hk ▸ hcontra).symm
      simp [List.filter_cons, hdrop, lookupClient, hskip, ih]
    · have hkeep : (!(e.1 == id)) = true := by simp [hk]
      simp only [List.filter_cons, hkeep, if_pos]
      by_cases hh : e.1 = h2
      · simp [lookupClient, hh]
      · have : (e.1 == h2) = false := by simp [hh]
        simp [lookupClient, this, ih]

theorem lookupClient_remove_self {α : Type} (m : Registry α) (id : String) :
    lookupClient (remove_client m id) id = none := by
  induction m with
  | nil => rfl
  | cons e rest ih =>
    by_cases hk : e.1 = id
    · have hdrop : (!(e.1 == id)) = false := by simp [hk]
      simp [remove_client, List.filter_cons, hdrop]
      simpa [remove_client] using ih
    · have hkeep : (!(e.1 == id)) = true := by simp [hk]
      have : (e.1 == id) = false := by simp [hk]
      simp [remove_client, List.filter_cons, hkeep, lookupClient, this]
      simpa [remove_client] using ih

theorem lookupClient_remove_other {α : Type} (m : Registry α) (id h2 : String)
    (hne : h2 ≠ id) :
    lookupClient (remove_client m id) h2 = lookupClient m h2 :=
  lookupClient_filter_other m id h2 hne

theorem lookupClient_insert_self {α : Type} (m : Registry α) (id : String) (c : α) :
    lookupClient (insertClient m id c) id = some c := by
  simp [insertClient, lookupClient]

theorem lookupClient_insert_other {α : Type} (m : Registry α) (id h2 : String) (c : α)
    (hne : h2 ≠ id) :
    lookupClient (insertClient m id c) h2 = lookupClient m h2 := by
  have : (id == h2) = false := by
    simp only [beq_eq_false_iff_ne]
    exact fun hcontra => hne hcontra.symm
  simp only [insertClient, lookupClient, this, if_neg, Bool.false_eq_true, reduceIte]
  exact lookupClient_filter_other m id h2 hne

theorem filter_erase_nil {α : Type} (m : Registry α) (id : String) :
    ((m.filter (fun e => !(e.1 == id))).filter (fun e => e.1 == id)) = [] := by
  induction m with
  | nil => rfl
  | cons e rest ih =>
    by_cases hk : e.1 = id
    · have hdrop : (!(e.1 == id)) = false := by simp [hk]
      simp [List.filter_cons, hdrop, ih]
    · have hkeep : (!(e.1 == id)) = true := by simp [hk]
      have : (e.1 == id) = false := by simp [hk]
      simp [List.filter_cons, hkeep, this, ih]

theorem sampleAlphanumeric_mem : ∀ r : Fin 62, sampleAlphanumeric r ∈ alphanumericChars := by
  decide

theorem sampleAlphanumeric_isAlphanum :
    ∀ r : Fin 62, (sampleAlphanumeric r).isAlphanum = true := by
  decide

theorem encodeResult_ok_image {α : Type} (r : Except ClientErr α) (f : α → Json)
    (payload : String) (h : encodeResult r f = .ok payload) :
    ∃ j, payload = jsonToString j := by
  cases r with
  | ok a =>
    refine ⟨f a, ?_⟩
    have := h.symm
    simpa [encodeResult] using this
  | error e => simp [encodeResult] at h

/-! ### The claims -/

/-- C3: every handle returned by `store_client` is a fixed-length string of
exactly 10 (hence at least 10) randomly drawn characters, each taken from
the `Alphanumeric` character set (and in particular alphanumeric). -/
theorem store_client_handle_alphanumeric {α : Type} (m : Registry α) (rng : Nat → Fin 62)
    (c : α) :
    (store_client m rng c).1.length = 10 ∧
    ∀ ch ∈ (store_client m rng c).1.data, ch ∈ alphanumericChars ∧ ch.isAlphanum = true := by
  constructor
  · show (String.mk ((List.range 10).map (fun i => sampleAlphanumeric (rng i)))).length = 10
    simp [String.length]
  · intro ch hch
    have hch2 : ch ∈ (List.range 10).map (fun i => sampleAlphanumeric (rng i)) := hch
    obtain ⟨i, _, rfl⟩ := List.mem_map.mp hch2
    exact ⟨sampleAlphanumeric_mem _, sampleAlphanumeric_isAlphanum _⟩

/-- C3 witness: the handle built from the constant random stream `0` over
the empty registry has length 10 and its head character is in the
alphanumeric set. -/
theorem store_client_handle_alphanumeric_witness :
    ('A' ∈ (store_client ([] : Registry Nat) (fun _ => (0 : Fin 62)) 5).1.data) ∧
    ('A' ∈ alphanumericChars ∧ 'A'.isAlphanum = true) :=
  ⟨by decide,
   (store_client_handle_alphanumeric ([] : Registry Nat) (fun _ => (0 : Fin 62)) 5).2 'A'
     (by decide)⟩

/-- C4: `store_client` inserts the client under the generated handle and
returns that handle; resolving the returned handle on the updated registry
succeeds and yields exactly the stored resource. -/
theorem store_client_then_get {α : Type} (m : Registry α) (rng : Nat → Fin 62) (c : α) :
    (store_client m rng c).2 = insertClient m (store_client m rng c).1 c ∧
    get_client (store_client m rng c).2 (store_client m rng c).1 = Panics.value c := by
  constructor
  · rfl
  · show get_client (insertClient m (genHandle rng) c) (genHandle rng) = Panics.value c
    simp [get_client, lookupClient_insert_self]

/-- C5: removing a handle present in the registry makes resolving it fail
(the lookup finds no resource, the unknown-handle condition, surfaced as the
`expect` panic), and leaves the binding of every other handle unchanged. -/
theorem remove_client_frame {α : Type} (m : Registry α) (h : String)
    (hmem : (lookupClient m h).isSome = true) :
    get_client (remove_client m h) h =
      Panics.panicked (.strPayload "client dropped or not initialised") ∧
    ∀ h2, h2 ≠ h → lookupClient (remove_client m h) h2 = lookupClient m h2 := by
  refine ⟨?_, fun h2 hne => lookupClient_remove_other m h h2 hne⟩
  simp [get_client, lookupClient_remove_self]

/-- C5 witness: removing the only handle of a one-entry registry makes its
resolution panic with the unknown-handle message. -/
theorem remove_client_frame_witness :
    ((lookupClient ([("a", (0 : Nat))] : Registry Nat) "a").isSome = true) ∧
    get_client (remove_client ([("a", (0 : Nat))] : Registry Nat) "a") "a" =
      Panics.panicked (.strPayload "client dropped or not initialised") :=
  ⟨by decide, (remove_client_frame ([("a", (0 : Nat))] : Registry Nat) "a" (by decide)).1⟩

/-- C10: when the generated handle collides with one already present,
`store_client` performs no collision check: the handle it returns is the
generated one regardless of the registry, the insert replaces the previous
binding (afterwards the handle maps only to the new resource), and every
other binding is unchanged. -/
theorem store_client_collision {α : Type} (m : Registry α) (rng : Nat → Fin 62) (c cOld : α)
    (hcol : lookupClient m (genHandle rng) = some cOld) :
    (store_client m rng c).1 = genHandle rng ∧
    lookupClient (store_client m rng c).2 (genHandle rng) = some c ∧
    ((store_client m rng c).2.filter (fun e => e.1 == genHandle rng)) =
      [(genHandle rng, c)] ∧
    ∀ h2, h2 ≠ genHandle rng →
      lookupClient (store_client m rng c).2 h2 = lookupClient m h2 := by
  refine ⟨rfl, lookupClient_insert_self m (genHandle rng) c, ?_,
    fun h2 hne => lookupClient_insert_other m (genHandle rng) h2 c hne⟩
  show ((insertClient m (genHandle rng) c).filter (fun e => e.1 == genHandle rng)) =
    [(genHandle rng, c)]
  simp only [insertClient, List.filter_cons]
  simp [filter_erase_nil]

/-- C10 witness: with the constant random stream `0` the generated handle is
`AAAAAAAAAA`; storing over a registry that already binds it replaces the old
resource 7 by the new resource 42. -/
theorem store_client_collision_witness :
    (lookupClient ([("AAAAAAAAAA", (7 : Nat))] : Registry Nat)
      (genHandle (fun _ => (0 : Fin 62))) = some 7) ∧
    lookupClient
      (store_client ([("AAAAAAAAAA", (7 : Nat))] : Registry Nat)
        (fun _ => (0 : Fin 62)) 42).2
      (genHandle (fun _ => (0 : Fin 62))) = some 42 :=
  ⟨by decide,
   (store_client_collision ([("AAAAAAAAAA", (7 : Nat))] : Registry Nat)
     (fun _ => (0 : Fin 62)) 42 7 (by decide)).2.1⟩

/-- C1: resolving a handle absent from the registry does not produce a
structured unknown-handle failure: `get_client` panics via `.expect`, the
task boundary catches that panic, and the caller receives the
internal-fault shape `Error::Panic` with the expect message — here
evaluated on an empty registry for every operation. The process does not
abort, but no unknown-handle error kind exists in the crate. -/
theorem unknown_handle_is_internal_fault (enc : Encoders) (backtrace : String) (api : Api) :
    ClientTask.perform ⟨"h", api⟩ [] enc backtrace =
      .error (.Panic ("Internal error: client dropped or not initialised\n\n" ++ backtrace)) := by
  have h1 : ("Internal error: " ++ "client dropped or not initialised") ++ "\n\n" =
      "Internal error: client dropped or not initialised\n\n" := by decide
  simp only [ClientTask.perform, convert_async_panics, taskBody, get_client, lookupClient,
    panic_to_response_message, h1]

/-- C2: a panic with any payload inside the failure-isolation boundary is
converted into `Err (Error::Panic msg)` where `msg` contains the panic's
String or `&str` text when present (otherwise the generic marker) and ends
with the backtrace; the panic never propagates (a normal result passes
through unchanged). Both `convert_async_panics` and `convert_panics`
perform the same conversion. -/
theorem panic_boundary_isolation (p : PanicPayload) (backtrace : String) :
    (∃ msg,
      convert_async_panics (α := String) (.panicked p) backtrace = .error (.Panic msg) ∧
      convert_panics (α := String) (.panicked p) backtrace = .error (.Panic msg) ∧
      msg = panic_to_response_message p backtrace ∧
      (∀ s, p = .stringPayload s ∨ p = .strPayload s → ∃ pre post, msg = pre ++ s ++ post) ∧
      (p = .otherPayload → msg = "Internal error" ++ "\n\n" ++ backtrace) ∧
      (∃ pre, msg = pre ++ backtrace)) ∧
    (∀ r : Except Error String, convert_async_panics (.value r) backtrace = r) := by
  refine ⟨⟨panic_to_response_message p backtrace, rfl, rfl, rfl, ?_, ?_, ?_⟩, fun r => rfl⟩
  · intro s hs
    refine ⟨"Internal error: ", "\n\n" ++ backtrace, ?_⟩
    rcases hs with h | h <;> subst h <;>
      simp only [panic_to_response_message, strAppendAssoc]
  · intro h
    subst h
    rfl
  · cases p <;> exact ⟨_, rfl⟩

/-- C2 witness: a panic carrying the `&str` payload `boom` over backtrace
`trace` is caught and converted into an `Error::Panic` message containing
`boom`. -/
theorem panic_boundary_isolation_witness :
    ∃ msg,
      convert_async_panics (α := String) (.panicked (.strPayload "boom")) "trace" =
        .error (.Panic msg) ∧
      ∃ pre post, msg = pre ++ "boom" ++ post := by
  obtain ⟨⟨msg, h1, _, _, h4, _, _⟩, _⟩ := panic_boundary_isolation (.strPayload "boom") "trace"
  exact ⟨msg, h1, h4 "boom" (Or.inr rfl)⟩

/-- C6: the raw result of `GetRawMessage` is delivered verbatim, without the
JSON-serialization step (whatever string the external call returns is the
payload), while the success payload of every other `Api` variant is the
JSON rendering of some encoded value. -/
theorem raw_message_bypasses_encoding :
    (∀ (client : ClientRes) (enc : Encoders) (id : MessageId) (s : String),
      client.get_message_raw id = .ok s →
      performApi client enc (.GetRawMessage id) = .ok s) ∧
    (∀ (client : ClientRes) (enc : Encoders) (api : Api) (payload : String),
      (∀ id, api ≠ .GetRawMessage id) →
      performApi client enc api = .ok payload →
      ∃ j, payload = jsonToString j) := by
  constructor
  · intro client enc id s h
    simp [performApi, rawResult, h]
  · intro client enc api payload hne h
    cases api <;>
      first
        | exact absurd rfl (hne _)
        | exact encodeResult_ok_image _ _ _ h

/-- C6 witness: the sample client's raw call returns the empty string,
which is delivered as-is, while `GetInfo` delivers a JSON rendering. -/
theorem raw_message_bypasses_encoding_witness :
    (performApi sampleClient sampleEnc (.GetRawMessage sampleId) = .ok "") ∧
    ∃ j, "null" = jsonToString j :=
  ⟨raw_message_bypasses_encoding.1 sampleClient sampleEnc sampleId "" rfl,
   raw_message_bypasses_encoding.2 sampleClient sampleEnc .GetInfo "null"
     (fun _ hcontra => Api.noConfusion hcontra) rfl⟩

/-- C7: the DTO conversion serializes output metadata with the renamed
fields `messageId` (hex), `transactionId` (hex), `outputIndex`, `isSpent`,
`address` (bech32) and `amount`, and both `GetOutput` and `FindOutputs`
produce their payload through this very same per-element serialization. -/
theorem output_dto_field_renames :
    (∀ v : OutputMetadata,
      serializeOutputMetadataDto (OutputMetadataDto.from v) =
        Json.obj
          [("messageId", .str (hexEncode v.message_id)),
           ("transactionId", .str (hexEncode v.transaction_id)),
           ("outputIndex", .num v.output_index),
           ("isSpent", .bool v.is_spent),
           ("address", .str v.address.to_bech32),
           ("amount", .num v.amount)]) ∧
    (∀ (client : ClientRes) (enc : Encoders) (id : UTXOInput) (v : OutputMetadata),
      client.get_output id = .ok v →
      performApi client enc (.GetOutput id) =
        .ok (jsonToString (serializeOutputMetadataDto (OutputMetadataDto.from v)))) ∧
    (∀ (client : ClientRes) (enc : Encoders) (outs : List UTXOInput) (addrs : List Address)
        (vs : List OutputMetadata),
      client.find_outputs outs addrs = .ok vs →
      performApi client enc (.FindOutputs outs addrs) =
        .ok (jsonToString
          (.arr (vs.map (fun v => serializeOutputMetadataDto (OutputMetadataDto.from v)))))) := by
  refine ⟨fun v => rfl, ?_, ?_⟩
  · intro client enc id v h
    simp [performApi, encodeResult, h]
  · intro client enc outs addrs vs h
    simp [performApi, encodeResult, h]

/-- C7 witness: the sample metadata record is serialized with the renamed
fields and delivered through `GetOutput`. -/
theorem output_dto_field_renames_witness :
    performApi sampleClient sampleEnc (.GetOutput sampleUtxo) =
      .ok (jsonToString (serializeOutputMetadataDto (OutputMetadataDto.from sampleMeta))) :=
  output_dto_field_renames.2.1 sampleClient sampleEnc sampleUtxo sampleMeta rfl

/-- C8: a successful `GetTips` delivers the JSON encoding of the
two-element list made of the pair returned by the external get-tips call,
in order. -/
theorem get_tips_two_ids (client : ClientRes) (enc : Encoders) (t1 t2 : MessageId)
    (h : client.get_tips = .ok (t1, t2)) :
    performApi client enc .GetTips =
      .ok (jsonToString (Json.arr [enc.messageId t1, enc.messageId t2])) ∧
    [enc.messageId t1, enc.messageId t2].length = 2 := by
  exact ⟨by simp [performApi, encodeResult, h], rfl⟩

/-- C8 witness: the sample client's tips pair is delivered as the encoding
of the two-element list. -/
theorem get_tips_two_ids_witness :
    performApi sampleClient sampleEnc .GetTips =
      .ok (jsonToString (Json.arr [sampleEnc.messageId sampleId, sampleEnc.messageId sampleId2])) :=
  (get_tips_two_ids sampleClient sampleEnc sampleId sampleId2 rfl).1

/-- C9: `ClientTask::complete` delivers exactly one outcome per task result:
a success yields exactly one string value, an error of any kind yields
exactly one thrown error in the uniform `ClientTask error: {:?}` shape, and
the two outcome shapes are mutually exclusive (never zero, never two). -/
theorem complete_exactly_once :
    (∀ s, ClientTask.complete (.ok s) = .value s) ∧
    (∀ e, ClientTask.complete (.error e) =
      .thrown ("ClientTask error: " ++ Error.debugFormat e)) ∧
    (∀ r : Except Error String,
      (∃ s, ClientTask.complete r = .value s) ↔ ¬∃ msg, ClientTask.complete r = .thrown msg) := by
  refine ⟨fun s => rfl, fun e => rfl, fun r => ?_⟩
  cases r with
  | ok s => simp [ClientTask.complete]
  | error e => simp [ClientTask.complete]

/-- C9 witness: a success delivers its string, a `Panic` error delivers the
uniform thrown shape. -/
theorem complete_exactly_once_witness :
    ClientTask.complete (.ok "x") = .value "x" ∧
    ClientTask.complete (.error (.Panic "p")) =
      .thrown ("ClientTask error: " ++ Error.debugFormat (.Panic "p")) :=
  ⟨complete_exactly_once.1 "x", complete_exactly_once.2.1 (.Panic "p")⟩

end IotaBridge
